import Mathlib

/-!
A shallow embedding of the md2googleslides rendering engine: the layout
helpers (autofit text sizing), the generic slide layout request builder
(text insertion, image/video packing, tables), and the batch dispatch
scheduler (request chunking), together with theorems settling the
specification claims about them.

Numbers are modelled as rationals: every arithmetic path the claims
exercise stays within exactly representable values.  Canvas text
measurement is an external npm dependency of the repository, so it is
modelled as an explicit measurement environment passed to the autofit
routine; the properties proved below hold for every environment.
-/

namespace MdToGSlides

/-- JS Math.round: round half toward positive infinity. -/
def jsRound (q : ℚ) : ℤ := ⌊q + 1/2⌋

/-- JS ToIntegerOrInfinity as used by substring and indexOf: truncation toward zero. -/
def jsTrunc (q : ℚ) : ℤ := if 0 ≤ q then ⌊q⌋ else ⌈q⌉

/-- str.substring(0, q): truncate the bound toward zero, clamp below at 0. -/
def jsTakeQ (s : String) (q : ℚ) : String := String.mk (s.toList.take (jsTrunc q).toNat)

/-- str.substring(q): truncate toward zero, clamp below at 0. -/
def jsDropQ (s : String) (q : ℚ) : String := String.mk (s.toList.drop (jsTrunc q).toNat)

/-- Helper for jsLastIndexOfSpace: scan with running index, remembering the last space. -/
def lastSpaceAux : List Char → ℤ → ℤ → ℤ
  | [], _, best => best
  | c :: rest, i, best => lastSpaceAux rest (i + 1) (if c = ' ' then i else best)

/-- JS str.lastIndexOf(" "): index of the last space, or -1. -/
def jsLastIndexOfSpace (s : String) : ℤ := lastSpaceAux s.toList 0 (-1)

/-- Helper for jsIndexOfSpaceFrom: first space at or after the running index. -/
def firstSpaceAux : List Char → ℤ → ℤ
  | [], _ => -1
  | c :: rest, i => if c = ' ' then i else firstSpaceAux rest (i + 1)

/-- JS str.indexOf(" ", from): first space at index at least from, or -1. -/
def jsIndexOfSpaceFrom (s : String) (frm : ℤ) : ℤ :=
  let f := frm.toNat
  let k := firstSpaceAux (s.toList.drop f) 0
  if k < 0 then -1 else k + f

/-- Helper for splitLines, accumulating the current line in reverse. -/
def splitLinesList : List Char → List Char → List String
  | [], acc => [String.mk acc.reverse]
  | c :: rest, acc =>
    if c = '\n' then String.mk acc.reverse :: splitLinesList rest []
    else splitLinesList rest (c :: acc)

/-- JS str.split("\n"). -/
def splitLines (s : String) : List String := splitLinesList s.toList []

/-- JS lines.join("\n"). -/
def joinLines : List String → String
  | [] => ""
  | [s] => s
  | s :: rest => s ++ "\n" ++ joinLines rest

/-- Count of matches of the source regex over backslash followed by n
(the source pattern is an escaped backslash, so it matches the two-character
sequence, not a newline), scanning left to right without overlap. -/
def countEscapedNList : List Char → ℕ
  | '\\' :: 'n' :: rest => countEscapedNList rest + 1
  | _ :: rest => countEscapedNList rest
  | [] => 0

def countEscapedN (s : String) : ℕ := countEscapedNList s.toList

/-- JS whitespace test for trimLeft, restricted to the characters the deck model uses. -/
def isJsSpace (c : Char) : Bool := c = ' ' ∨ c = '\t' ∨ c = '\n' ∨ c = '\r'

/-- JS str.trimLeft(). -/
def jsTrimLeft (s : String) : String := String.mk (s.toList.dropWhile isJsSpace)

/-- JS array.join(","), used by computeShallowFieldMask. -/
def commaJoin : List String → String
  | [] => ""
  | [s] => s
  | s :: rest => s ++ "," ++ commaJoin rest

/-- Concatenation of the images of a list-valued function, in order. -/
def concatMap {α β : Type} (f : α → List β) : List α → List β
  | [] => []
  | a :: rest => f a ++ concatMap f rest

/-- The youngest (last) defined entry of a list of optional values. -/
def lastDefined {β : Type} : List (Option β) → Option β
  | [] => none
  | o :: rest =>
    match lastDefined rest with
    | some v => some v
    | none => o

def listSum (xs : List ℚ) : ℚ := xs.foldl (· + ·) 0

/-- JS sum divided by length: none exactly when the list is empty (the source
average is NaN there and every use tests isNaN before using it). -/
def averageOrNone (xs : List ℚ) : Option ℚ :=
  if xs.length = 0 then none else some (listSum xs / (xs.length : ℚ))

/-! Unit conversions and constants from presentation_helpers.ts and generic_layout.ts. -/

def convertEMUtoPT (emu : ℚ) : ℚ := emu / 12700

def convertPXtoPT (px : ℚ) : ℚ := px * (3/4)

def convertPTtoPX (pt : ℚ) : ℚ := pt / (3/4)

def MIN_SIZE : ℚ := 14

def DEFAULT_PADDING : ℚ := (1/5) * 72

def WTF_CHAR_WIDTH_HACK : ℚ := 23/20

def EMUperPixel : ℚ := 9525

def MAX_IMAGES_PER_CHUNK : ℕ := 6

/-! Data model of the remote document snapshot, following the subset of the
Schema$Presentation types the rendering engine reads.  Size magnitudes and
transforms are rationals; fields the schema leaves optional are Options.
A paragraph style object is modelled by the magnitudes and enum strings of
its fields (the code reads magnitudes through an or-zero accessor). -/

structure ParagraphStyle where
  lineSpacing : Option ℚ := none
  alignment : Option String := none
  indentStart : Option ℚ := none
  indentEnd : Option ℚ := none
  spaceAbove : Option ℚ := none
  spaceBelow : Option ℚ := none
  indentFirstLine : Option ℚ := none
  direction : Option String := none
  spacingMode : Option String := none
deriving DecidableEq

/-- The computed amalgamated style: the fields of DEFAULT_STYLE that the
autofit measurement reads, all made total by the defaults. -/
structure ComputedStyle where
  fontFamily : String
  fontSize : ℚ
  weight : ℚ
  lineSpacing : ℚ
  alignment : String
  indentStart : ℚ
  indentEnd : ℚ
  spaceAbove : ℚ
  spaceBelow : ℚ
  indentFirstLine : ℚ
  direction : String
  spacingMode : String
deriving DecidableEq

/-- DEFAULT_STYLE from presentation_helpers.ts (fontSize 16pt, Arial weight
400, lineSpacing 115 percent, zero indents and paragraph spacing). -/
def DEFAULT_STYLE : ComputedStyle :=
  { fontFamily := "Arial"
    fontSize := 16
    weight := 400
    lineSpacing := 115
    alignment := "START"
    indentStart := 0
    indentEnd := 0
    spaceAbove := 0
    spaceBelow := 0
    indentFirstLine := 0
    direction := "LEFT_TO_RIGHT"
    spacingMode := "NEVER_COLLAPSE" }

/-- One step of Object.assign: fields the source style defines override the
accumulator, fields it leaves undefined are kept. -/
def overlayStyle (acc : ComputedStyle) (s : ParagraphStyle) : ComputedStyle :=
  { acc with
    lineSpacing := s.lineSpacing.getD acc.lineSpacing
    alignment := s.alignment.getD acc.alignment
    indentStart := s.indentStart.getD acc.indentStart
    indentEnd := s.indentEnd.getD acc.indentEnd
    spaceAbove := s.spaceAbove.getD acc.spaceAbove
    spaceBelow := s.spaceBelow.getD acc.spaceBelow
    indentFirstLine := s.indentFirstLine.getD acc.indentFirstLine
    direction := s.direction.getD acc.direction
    spacingMode := s.spacingMode.getD acc.spacingMode }

/-- Object.assign with a possibly undefined source: undefined sources are skipped. -/
def styleStep (acc : ComputedStyle) (o : Option ParagraphStyle) : ComputedStyle :=
  match o with
  | none => acc
  | some s => overlayStyle acc s

/-- The subset of a textRun style that the autofit extraction reads: the
fontSize magnitude, the weightedFontFamily weight, and the fontFamily. -/
structure OptTextStyle where
  fontSize : Option ℚ := none
  weight : Option ℚ := none
  fontFamily : Option String := none
deriving DecidableEq

structure TextElement where
  textRunStyle : Option OptTextStyle := none
  paragraphStyle : Option ParagraphStyle := none
deriving DecidableEq

structure ShapeText where
  textElements : List TextElement := []
deriving DecidableEq

structure Transform where
  scaleX : Option ℚ := none
  scaleY : Option ℚ := none
  shearX : Option ℚ := none
  shearY : Option ℚ := none
  translateX : Option ℚ := none
  translateY : Option ℚ := none
deriving DecidableEq

/-- A page element.  sizeWidth and sizeHeight are the size magnitudes in EMU
(the source asserts their presence wherever it reads them, so they are total
here); placeholder type and parent reference mirror shape.placeholder.
imagePlaceholderType mirrors image.placeholder.type for picture placeholders. -/
structure PageElement where
  objectId : String := ""
  sizeWidth : ℚ := 0
  sizeHeight : ℚ := 0
  transform : Transform := {}
  shapeText : Option ShapeText := none
  shapePlaceholderType : Option String := none
  imagePlaceholderType : Option String := none
  parentObjectId : Option String := none
deriving DecidableEq

/-- a.shape, .text, .textElements, .at(0), .paragraphMarker, .style with
optional chaining at every step. -/
def firstParagraphStyle (e : PageElement) : Option ParagraphStyle :=
  (e.shapeText.bind (fun st => st.textElements.head?)).bind (fun te => te.paragraphStyle)

/-- Object.assign of the default style with each ancestor first paragraph
style, oldest to youngest, from calculateFontSize. -/
def computedStyle (ancestors : List PageElement) : ComputedStyle :=
  (ancestors.map firstParagraphStyle).foldl styleStep DEFAULT_STYLE

def textElementsOf (e : PageElement) : List TextElement :=
  (e.shapeText.map (fun st => st.textElements)).getD []

/-- Explicit run font sizes of the element, keeping only integers
(Number.isInteger filter in the source). -/
def extractFontSizes (e : PageElement) : List ℚ :=
  ((textElementsOf e).filterMap (fun te => te.textRunStyle.bind (fun s => s.fontSize))).filter
    (fun q => q.den = 1)

/-- Explicit run font weights of the element, keeping only integers. -/
def extractFontWeights (e : PageElement) : List ℚ :=
  ((textElementsOf e).filterMap (fun te => te.textRunStyle.bind (fun s => s.weight))).filter
    (fun q => q.den = 1)

/-- findByKey(element, "fontFamily"): depth-first search for a fontFamily key.
Over the embedded element structure the only fontFamily keys live in the
textRun styles, so the search returns the first one defined there. -/
def findFontFamilyByKey (e : PageElement) : Option String :=
  (textElementsOf e).findSome? (fun te => te.textRunStyle.bind (fun s => s.fontFamily))

structure Dimensions where
  width : ℚ
  height : ℚ
deriving DecidableEq

/-- getElementSizePT: native size times affine scale, EMU to PT, rounded.
The source asserts the size magnitudes and scales are present and nonzero;
absent scales are given the neutral value here. -/
def getElementSizePT (e : PageElement) : Dimensions :=
  { width := (jsRound (convertEMUtoPT (e.sizeWidth * e.transform.scaleX.getD 1)) : ℚ)
    height := (jsRound (convertEMUtoPT (e.sizeHeight * e.transform.scaleY.getD 1)) : ℚ) }

/-- The font the canvas context is configured with before measuring. -/
structure FontSpec where
  weight : ℚ
  size : ℚ
  family : String

/-- The measurement interface of the canvas dependency: metrics.width and the
em ascent and descent, as functions of the configured font and measured string.
The claims hold for every environment. -/
structure CanvasMeasure where
  width : FontSpec → String → ℚ
  emHeightAscent : FontSpec → String → ℚ
  emHeightDescent : FontSpec → String → ℚ

/-- The splitter loop from presentation_helpers.ts, greedily wrapping at the
last space before the limit.  The limit is a rational because the source
passes the fractional estimated characters per line.  The source loop has no
fuel; for limits of at least one character it strictly shrinks the string, and
the fuel below is sufficient there.  Degenerate limits below one character
make the source loop diverge, which the fuel cut truncates. -/
def splitterAux (l : ℚ) : ℕ → String → List String
  | 0, str => [str]
  | fuel+1, str =>
    if l < (str.length : ℚ) then
      let pos0 : ℤ := jsLastIndexOfSpace (jsTakeQ str l)
      let pos : ℚ := if pos0 ≤ 0 then l else (pos0 : ℚ)
      let broken := splitLines (jsTakeQ str pos)
      let i0 : ℚ := (jsIndexOfSpaceFrom str (jsTrunc pos) : ℚ) + 1
      let i : ℚ := if i0 < pos ∨ pos + l < i0 then pos else i0
      broken ++ splitterAux l fuel (jsDropQ str i)
    else [str]

def splitter (str : String) (l : ℚ) : List String := splitterAux l (str.length + 1) str

/-- isOutsideBounds from calculateFontSize, as a function of the candidate
font size: set the font, estimate characters per line from a measured sample,
wrap, and compare rendered extent plus inherited whitespace to the box. -/
def isOutsideBounds (env : CanvasMeasure) (cs : ComputedStyle) (fontWeight : ℚ)
    (fontFamily : String) (sizePT : Dimensions) (rawText : String)
    (constraints : String) (fontSize : ℚ) : Bool :=
  let font : FontSpec := { weight := fontWeight, size := fontSize, family := fontFamily }
  let numChars : ℕ := min rawText.length 100
  let avgCharWidth : ℚ := env.width font (String.mk (rawText.toList.take numChars)) / (numChars : ℚ)
  let est : ℚ := convertPTtoPX sizePT.width / (avgCharWidth * WTF_CHAR_WIDTH_HACK)
  let lines := splitter rawText est
  let c := countEscapedN rawText
  let newlines : ℚ := if c = 0 then 1 else (c : ℚ)
  if constraints = "horizontal" ∧ 1 < lines.length then true
  else
    let horizontalWhiteSpace := cs.indentStart + cs.indentEnd
    let spaceAroundLines := newlines * (cs.spaceBelow + cs.spaceAbove)
    let spaceBetweenLines := (newlines - 1) * (cs.lineSpacing / 100 * fontSize)
    let verticalWhiteSpace := spaceAroundLines + spaceBetweenLines
    let joined := joinLines lines
    let height := convertPXtoPT (env.emHeightAscent font joined + env.emHeightDescent font joined)
      + verticalWhiteSpace
    let width := convertPXtoPT (env.width font joined) + horizontalWhiteSpace
    decide (sizePT.width < width ∨ sizePT.height < height)

/-- The autofit while loop: while outside bounds and above the floor,
decrement by a quarter point.  The source loop has no fuel; autofitFuel below
is proved sufficient, and runAutofit is the loop as executed. -/
def autofitLoop (outside : ℚ → Bool) : ℕ → ℚ → ℚ
  | 0, fs => fs
  | fuel+1, fs =>
    if outside fs = true ∧ MIN_SIZE < fs then autofitLoop outside fuel (fs - 1/4) else fs

/-- The number of decrements the autofit loop performs. -/
def autofitSteps (outside : ℚ → Bool) : ℕ → ℚ → ℕ
  | 0, _ => 0
  | fuel+1, fs =>
    if outside fs = true ∧ MIN_SIZE < fs then autofitSteps outside fuel (fs - 1/4) + 1 else 0

def autofitFuel (fs : ℚ) : ℕ := (⌈(fs - MIN_SIZE) * 4⌉).toNat + 1

def runAutofit (outside : ℚ → Bool) (fs : ℚ) : ℚ := autofitLoop outside (autofitFuel fs) fs

def runAutofitSteps (outside : ℚ → Bool) (fs : ℚ) : ℕ :=
  autofitSteps outside (autofitFuel fs) fs

/-- calculateFontSize from presentation_helpers.ts, without the memo cache
(calculateFontSizeCached below adds it).  The source receives the whole
TextDefinition and reads only its rawText, which is passed directly here.
The youngest ancestor is the element being fitted; the source dereferences it
unconditionally and is only called with nonempty chains, so the empty chain
maps to zero here. -/
def calculateFontSize (env : CanvasMeasure) (ancestors : List PageElement)
    (rawText : String) (constraints : String) : ℚ :=
  match ancestors.getLast? with
  | none => 0
  | some element =>
    let size0 := getElementSizePT element
    let sizePT : Dimensions :=
      { width := size0.width - DEFAULT_PADDING, height := size0.height - DEFAULT_PADDING }
    let cs := computedStyle ancestors
    let fontFamily := (findFontFamilyByKey element).getD cs.fontFamily
    let fontWeight := (averageOrNone (extractFontWeights element)).getD cs.weight
    let fontSize0 := (averageOrNone (extractFontSizes element)).getD cs.fontSize
    if rawText.length = 0 then fontSize0
    else runAutofit (isOutsideBounds env cs fontWeight fontFamily sizePT rawText constraints) fontSize0

/-- The iteration count of the calculateFontSize search loop. -/
def calculateFontSizeSteps (env : CanvasMeasure) (ancestors : List PageElement)
    (rawText : String) (constraints : String) : ℕ :=
  match ancestors.getLast? with
  | none => 0
  | some element =>
    let size0 := getElementSizePT element
    let sizePT : Dimensions :=
      { width := size0.width - DEFAULT_PADDING, height := size0.height - DEFAULT_PADDING }
    let cs := computedStyle ancestors
    let fontFamily := (findFontFamilyByKey element).getD cs.fontFamily
    let fontWeight := (averageOrNone (extractFontWeights element)).getD cs.weight
    let fontSize0 := (averageOrNone (extractFontSizes element)).getD cs.fontSize
    if rawText.length = 0 then 0
    else runAutofitSteps (isOutsideBounds env cs fontWeight fontFamily sizePT rawText constraints) fontSize0

/-- The initial candidate size of calculateFontSize: the averaged explicit
run sizes of the fitted element, else the inherited computed fontSize. -/
def initialCandidate (ancestors : List PageElement) : ℚ :=
  match ancestors.getLast? with
  | none => 0
  | some element => (averageOrNone (extractFontSizes element)).getD (computedStyle ancestors).fontSize

/-- Lookup in the memoization store, modelled as an association list in
insertion order. -/
def cacheLookup (cache : List (String × ℚ)) (key : String) : Option ℚ :=
  (cache.find? (fun p => p.1 == key)).map (fun p => p.2)

/-- calculateFontSize with the module-global cachedFontCalculations map: the
key is rawText concatenated with the element objectId; a hit returns the
stored value, a miss computes and stores (the source early return for empty
text skips the store). -/
def calculateFontSizeCached (env : CanvasMeasure) (cache : List (String × ℚ))
    (ancestors : List PageElement) (rawText : String) (constraints : String) :
    ℚ × List (String × ℚ) :=
  match ancestors.getLast? with
  | none => (0, cache)
  | some element =>
    let key := rawText ++ element.objectId
    match cacheLookup cache key with
    | some v => (v, cache)
    | none =>
      let r := calculateFontSize env ancestors rawText constraints
      if rawText.length = 0 then (r, cache) else (r, cache ++ [(key, r)])

/-! The slide model consumed by the request builder (slides.ts), and the
mutation requests emitted by generic_layout.ts.  A text run carries the style
override fields the builder copies into updateTextStyle; color objects and
links are modelled by representative string values since the builder only
copies them through. -/

structure TextRun where
  start : ℤ := 0
  stop : ℤ := 0
  bold : Option Bool := none
  italic : Option Bool := none
  foregroundColor : Option String := none
  backgroundColor : Option String := none
  strikethrough : Option Bool := none
  underline : Option Bool := none
  smallCaps : Option Bool := none
  fontFamily : Option String := none
  fontSize : Option ℚ := none
  link : Option String := none
  baselineOffset : Option String := none
deriving DecidableEq

structure ListMarker where
  start : ℤ := 0
  stop : ℤ := 0
  type : String := "unordered"
deriving DecidableEq

structure TextDefinition where
  rawText : String := ""
  textRuns : List TextRun := []
  listMarkers : List ListMarker := []
deriving DecidableEq

/-- The style literal built for an updateTextStyle request, field for field. -/
structure TextStyleOut where
  bold : Option Bool := none
  italic : Option Bool := none
  foregroundColor : Option String := none
  backgroundColor : Option String := none
  strikethrough : Option Bool := none
  underline : Option Bool := none
  smallCaps : Option Bool := none
  fontFamily : Option String := none
  fontSize : Option ℚ := none
  link : Option String := none
  baselineOffset : Option String := none
deriving DecidableEq

/-- The mutation requests the engine emits, with the payload fields the
claims inspect.  Optional objectId mirrors locationProps whose objectId can
be undefined; cellLocation is the table cell target. -/
inductive Request where
  | createSlide (objectId layoutId : String)
  | insertText (objectId : Option String) (cellLocation : Option (ℕ × ℕ)) (text : String)
  | updateTextStyle (objectId : Option String) (cellLocation : Option (ℕ × ℕ))
      (startIndex stopIndex : ℤ) (style : TextStyleOut) (fields : String)
  | createParagraphBullets (objectId : Option String) (cellLocation : Option (ℕ × ℕ))
      (startIndex stopIndex : ℤ) (bulletPreset : String)
  | updatePageProperties (objectId : String) (contentUrl : String)
  | createImage (objectId : String) (pageObjectId : String)
      (width height translateX translateY : ℚ) (url : String)
  | updatePageElementAltText (objectId title description : String)
  | createVideo (objectId : String) (pageObjectId : String) (videoId : String)
      (width height translateX translateY : ℚ)
  | updateVideoProperties (objectId : String) (autoPlay : Bool)
  | createTable (objectId : String) (pageObjectId : String) (rows columns : ℤ)
  | updateTableCellProperties (objectId : String)
      (rowIndex columnIndex rowSpan columnSpan : ℤ) (red green blue : ℚ) (fields : String)
  | deleteObject (objectId : String)
deriving DecidableEq

/-- The field names of the style literal with defined values, in literal
order (computeShallowFieldMask over Object.keys). -/
def maskFields (s : TextStyleOut) : List String :=
  (if s.bold.isSome then ["bold"] else [])
  ++ (if s.italic.isSome then ["italic"] else [])
  ++ (if s.foregroundColor.isSome then ["foregroundColor"] else [])
  ++ (if s.backgroundColor.isSome then ["backgroundColor"] else [])
  ++ (if s.strikethrough.isSome then ["strikethrough"] else [])
  ++ (if s.underline.isSome then ["underline"] else [])
  ++ (if s.smallCaps.isSome then ["smallCaps"] else [])
  ++ (if s.fontFamily.isSome then ["fontFamily"] else [])
  ++ (if s.fontSize.isSome then ["fontSize"] else [])
  ++ (if s.link.isSome then ["link"] else [])
  ++ (if s.baselineOffset.isSome then ["baselineOffset"] else [])

def computeShallowFieldMask (s : TextStyleOut) : String := commaJoin (maskFields s)

/-- The style literal built for one run.  When autofitting is on (a nonempty
ancestor chain and a truthy constraint string) and the run has no explicit
size, the fontSize is the calculateFontSize result. -/
def styleOutFor (env : CanvasMeasure) (ancestors : List PageElement) (rawText : String)
    (constraints : Option String) (run : TextRun) : TextStyleOut :=
  let fontSize :=
    if ancestors.length ≠ 0 ∧ constraints.getD "" ≠ "" ∧ run.fontSize = none then
      some (calculateFontSize env ancestors rawText (constraints.getD ""))
    else run.fontSize
  { bold := run.bold
    italic := run.italic
    foregroundColor := run.foregroundColor
    backgroundColor := run.backgroundColor
    strikethrough := run.strikethrough
    underline := run.underline
    smallCaps := run.smallCaps
    fontFamily := run.fontFamily
    fontSize := fontSize
    link := run.link
    baselineOffset := run.baselineOffset }

/-- The updateTextStyle request for one run, or none when the field mask is
empty (the source only pushes a request with at least one style set). -/
def styleRequestFor (env : CanvasMeasure) (ancestors : List PageElement) (rawText : String)
    (constraints : Option String) (oid : Option String) (cell : Option (ℕ × ℕ))
    (run : TextRun) : Option Request :=
  let style := styleOutFor env ancestors rawText constraints run
  let fields := computeShallowFieldMask style
  if fields.length ≠ 0 then
    some (Request.updateTextStyle oid cell run.start run.stop style fields)
  else none

/-- The createParagraphBullets request for one list marker. -/
def bulletRequestFor (oid : Option String) (cell : Option (ℕ × ℕ)) (m : ListMarker) : Request :=
  Request.createParagraphBullets oid cell m.start m.stop
    (if m.type = "ordered" then "NUMBERED_DIGIT_ALPHA_ROMAN" else "BULLET_DISC_CIRCLE_SQUARE")

/-- appendInsertTextRequests from generic_layout.ts.  Returns the requests it
pushes, in push order, together with the TextDefinition as it is left after
the call: the source reverses text.textRuns and text.listMarkers in place
with Array.reverse before iterating them.  The early return for effectively
empty text pushes nothing and mutates nothing. -/
def appendInsertTextRequests (env : CanvasMeasure) (text : TextDefinition)
    (oid : Option String) (cell : Option (ℕ × ℕ)) (constraints : Option String)
    (ancestors : List PageElement) : List Request × TextDefinition :=
  if (jsTrimLeft text.rawText).length = 0 then ([], text)
  else
    let runs := text.textRuns.reverse
    let markers := text.listMarkers.reverse
    (Request.insertText oid cell text.rawText
        :: (runs.filterMap (styleRequestFor env ancestors text.rawText constraints oid cell)
            ++ markers.map (bulletRequestFor oid cell)),
     { text with textRuns := runs, listMarkers := markers })

def isUpdateTextStyleReq : Request → Bool
  | Request.updateTextStyle _ _ _ _ _ _ => true
  | _ => false

def isBulletReq : Request → Bool
  | Request.createParagraphBullets _ _ _ _ _ => true
  | _ => false

def isVideoReq : Request → Bool
  | Request.createVideo _ _ _ _ _ _ _ => true
  | Request.updateVideoProperties _ _ => true
  | _ => false

structure BoundingBox where
  height : ℚ
  width : ℚ
  x : ℚ
  y : ℚ
deriving DecidableEq

/-- calculateBoundingBox: native size under the affine transform, with the
or-default accessors of the source. -/
def calculateBoundingBox (e : PageElement) : BoundingBox :=
  let scaleX := e.transform.scaleX.getD 1
  let scaleY := e.transform.scaleY.getD 1
  let shearX := e.transform.shearX.getD 0
  let shearY := e.transform.shearY.getD 0
  { width := scaleX * e.sizeWidth + shearX * e.sizeHeight
    height := scaleY * e.sizeHeight + shearY * e.sizeWidth
    x := e.transform.translateX.getD 0
    y := e.transform.translateY.getD 0 }

/-- getBodyBoundingBox: the placeholder box, else the whole page. -/
def getBodyBoundingBox (pageWidth pageHeight : ℚ)
    (placeholder : Option PageElement) : BoundingBox :=
  match placeholder with
  | some p => calculateBoundingBox p
  | none => { width := pageWidth, height := pageHeight, x := 0, y := 0 }

structure ImageDefinition where
  url : String := ""
  width : ℚ := 0
  height : ℚ := 0
  padding : ℚ := 0
  offsetX : Option ℚ := none
  offsetY : Option ℚ := none
  altText : String := ""
deriving DecidableEq

/-- The target bounding box of transformImageSize: the placeholder box if
present, else a synthesized region capped at half the page on each axis and
centered on the page. -/
def imageTargetBox (pageWidth pageHeight : ℚ) (image : ImageDefinition)
    (placeholder : Option PageElement) : BoundingBox :=
  match placeholder with
  | some p => getBodyBoundingBox pageWidth pageHeight (some p)
  | none =>
    let maxWidth := pageWidth * (1/2)
    let maxHeight := pageHeight * (1/2)
    let imgWidth := min (image.width * EMUperPixel) maxWidth
    let imgHeight := min (image.height * EMUperPixel) maxHeight
    { width := imgWidth
      height := imgHeight
      x := maxWidth - imgWidth / 2
      y := maxHeight - imgHeight / 2 }

structure CreatedImagePlacement where
  width : ℚ
  height : ℚ
  translateX : ℚ
  translateY : ℚ
deriving DecidableEq

/-- transformImageSize from appendCreateImageRequests.  The left-right packer
receives exactly one item per call (the source logs an impossibility
otherwise), so the packed layout is the single padded image at offset zero.
The scale is the minimum of the box-to-layout width and height quotients; the
emitted element size is the unpadded image under that scale, translated so
the packed layout is centered, plus the per-item padding and explicit offset
under the same scale. -/
def transformImageSize (pageWidth pageHeight : ℚ) (image : ImageDefinition)
    (placeholder : Option PageElement) : CreatedImagePlacement :=
  let layoutWidth := image.width + image.padding * 2
  let layoutHeight := image.height + image.padding * 2
  let box := imageTargetBox pageWidth pageHeight image placeholder
  let sc := min (box.width / layoutWidth) (box.height / layoutHeight)
  let scaledWidth := layoutWidth * sc
  let scaledHeight := layoutHeight * sc
  let baseTranslateX := box.x + (box.width - scaledWidth) / 2
  let baseTranslateY := box.y + (box.height - scaledHeight) / 2
  let itemOffsetX := image.offsetX.getD 0
  let itemOffsetY := image.offsetY.getD 0
  { width := image.width * sc
    height := image.height * sc
    translateX := baseTranslateX + (0 + image.padding + itemOffsetX) * sc
    translateY := baseTranslateY + (0 + image.padding + itemOffsetY) * sc }

structure VideoDefinition where
  id : String := ""
  width : ℚ := 0
  height : ℚ := 0
  autoPlay : Bool := false
deriving DecidableEq

/-- The size and translation of the createVideo request: scale to fit the
body bounding box preserving aspect, then center. -/
def videoPlacement (pageWidth pageHeight : ℚ) (video : VideoDefinition)
    (placeholder : Option PageElement) : CreatedImagePlacement :=
  let box := getBodyBoundingBox pageWidth pageHeight placeholder
  let sc := min (box.width / video.width) (box.height / video.height)
  let scaledWidth := video.width * sc
  let scaledHeight := video.height * sc
  { width := scaledWidth
    height := scaledHeight
    translateX := box.x + (box.width - scaledWidth) / 2
    translateY := box.y + (box.height - scaledHeight) / 2 }

/-! The presentation snapshot and the per-slide content pass. -/

structure Page where
  objectId : String := ""
  pageElements : List PageElement := []
  speakerNotesObjectId : Option String := none
deriving DecidableEq

structure LayoutPage where
  name : String := ""
  objectId : String := ""
  pageElements : List PageElement := []
deriving DecidableEq

structure Presentation where
  slides : List Page := []
  masters : List Page := []
  layouts : List LayoutPage := []
  pageWidth : ℚ := 0
  pageHeight : ℚ := 0
deriving DecidableEq

def findPage (pres : Presentation) (pageId : String) : Option Page :=
  pres.slides.find? (fun p => p.objectId == pageId)

/-- findPlaceholder: the page elements whose shape placeholder type, or image
placeholder type, equals the requested name; none when there are no matches.
The source throws when the page itself is missing; the claims only involve
presentations containing the page, and that case maps to none here. -/
def findPlaceholder (pres : Presentation) (pageId : String) (name : String) :
    Option (List PageElement) :=
  match findPage pres pageId with
  | none => none
  | some page =>
    let phs := concatMap (fun e =>
      (if e.shapePlaceholderType == some name then [e] else [])
      ++ (if e.imagePlaceholderType == some name then [e] else [])) page.pageElements
    if phs.length ≠ 0 then some phs else none

def findSpeakerNotesObjectId (pres : Presentation) (pageId : String) : Option String :=
  (findPage pres pageId).bind (fun p => p.speakerNotesObjectId)

/-- The element map built in the GenericLayout constructor: every page
element of the slides, then the masters, then the layouts, keyed by objectId.
Map.set overwrites, so lookup returns the last inserted element with the key. -/
def allPageElements (pres : Presentation) : List PageElement :=
  concatMap (fun (p : Page) => p.pageElements) pres.slides
  ++ concatMap (fun (p : Page) => p.pageElements) pres.masters
  ++ concatMap (fun (p : LayoutPage) => p.pageElements) pres.layouts

def pageElementMapGet (pres : Presentation) (oid : Option String) : Option PageElement :=
  match oid with
  | none => none
  | some k => ((allPageElements pres).filter (fun e => e.objectId == k)).getLast?

/-- findParentObject: the element the placeholder parentObjectId points at. -/
def findParentObject (pres : Presentation) (e : PageElement) : Option PageElement :=
  pageElementMapGet pres e.parentObjectId

/-- The ancestor chain of an element, oldest to youngest, excluding the
element itself, by repeated parent lookups.  The source loop has no cycle
guard; the fuel (one past the element count) covers every acyclic chain. -/
def buildAncestorsAux (pres : Presentation) : ℕ → PageElement → List PageElement
  | 0, _ => []
  | fuel+1, e =>
    match findParentObject pres e with
    | none => []
    | some p => buildAncestorsAux pres fuel p ++ [p]

def buildAncestors (pres : Presentation) (e : PageElement) : List PageElement :=
  buildAncestorsAux pres ((allPageElements pres).length + 1) e

structure TableDefinition where
  cells : List (List TextDefinition) := []
  rows : ℤ := 0
  columns : ℤ := 0
deriving DecidableEq

/-- appendCreateTableRequest from generic_layout.ts.  When the first cell of
the first row is the structural sentinel, the first row is shifted off and the
row count decremented before the createTable request is built.  The trailing
updateTableCellProperties header fill is pushed unconditionally by the source.
Returns the pushed requests and the table as left after the call (the shift
and the per-cell run reversal mutate it in place).  The uuid table id is a
parameter since ids do not affect the claims. -/
def appendCreateTableRequest (env : CanvasMeasure) (tableId : String)
    (pageObjectId : Option String) (table : TableDefinition) :
    List Request × TableDefinition :=
  let hasHeader := ((table.cells.head?.getD []).head?.getD {}).rawText ≠ "DELETE THIS ROW"
  let table1 :=
    if hasHeader then table
    else { table with cells := table.cells.drop 1, rows := table.rows - 1 }
  let processedRows := table1.cells.enum.map (fun rc =>
    rc.2.enum.map (fun cc =>
      appendInsertTextRequests env cc.2 (some tableId) (some (rc.1, cc.1)) none []))
  let cellReqs := concatMap (fun row => concatMap (fun out => out.1) row) processedRows
  let newCells := processedRows.map (fun row => row.map (fun out => out.2))
  (Request.createTable tableId (pageObjectId.getD "") table1.rows table1.columns
      :: cellReqs
      ++ [Request.updateTableCellProperties tableId 0 0 1 table1.columns
            (3/4) (3/4) (3/4) "tableCellBackgroundFill.solidFill.color"],
   { table1 with cells := newCells })

/-- appendCreateImageRequests: one createImage plus one alt-text update per
image, the i-th image paired with the i-th picture placeholder if any.  The
uuid image id is a constant since ids do not affect the claims. -/
def appendCreateImageRequests (pres : Presentation) (pageObjectId : Option String)
    (images : List ImageDefinition) (placeholders : List PageElement) : List Request :=
  concatMap (fun (ia : ℕ × ImageDefinition) =>
    let pl := transformImageSize pres.pageWidth pres.pageHeight ia.2 (placeholders.get? ia.1)
    [Request.createImage "imageId" (pageObjectId.getD "") pl.width pl.height
        pl.translateX pl.translateY ia.2.url,
     Request.updatePageElementAltText "imageId" "" ia.2.altText]) images.enum

/-- appendCreateVideoRequests: throws on more than one video before building
anything; otherwise a createVideo sized and centered by videoPlacement plus an
autoPlay property update.  The source dereferences videos[0] unconditionally
and is only called on nonempty video lists; the empty list maps to no
requests here. -/
def appendCreateVideoRequests (pres : Presentation) (pageObjectId : Option String)
    (videos : List VideoDefinition) (placeholder : Option PageElement) :
    Except String (List Request) :=
  if 1 < videos.length then Except.error "Multiple videos per slide are not supported."
  else
    match videos.head? with
    | none => Except.ok []
    | some video =>
      let pl := videoPlacement pres.pageWidth pres.pageHeight video placeholder
      Except.ok
        [Request.createVideo "videoId" (pageObjectId.getD "") video.id
            pl.width pl.height pl.translateX pl.translateY,
         Request.updateVideoProperties "videoId" video.autoPlay]

structure BodyDefinition where
  text : TextDefinition := {}
  images : List ImageDefinition := []
  videos : List VideoDefinition := []
deriving DecidableEq

structure SlideDefinition where
  index : ℤ := 0
  objectId : Option String := none
  title : Option TextDefinition := none
  subtitle : Option TextDefinition := none
  backgroundImage : Option ImageDefinition := none
  tables : List TableDefinition := []
  bodies : List BodyDefinition := []
  notes : Option TextDefinition := none
deriving DecidableEq

/-- The placeholder argument of appendFillPlaceholderTextRequest: a name to
resolve on the slide page, or an already resolved element. -/
inductive PlaceholderRef where
  | byName (name : String)
  | byElement (e : PageElement)

/-- appendFillPlaceholderTextRequest: nothing for missing text or an
unresolvable named placeholder (skip), else the ancestor chain is built from
repeated parent lookups and the text is inserted with it. -/
def appendFillPlaceholderTextRequest (env : CanvasMeasure) (pres : Presentation)
    (slide : SlideDefinition) (value : Option TextDefinition) (ph : PlaceholderRef)
    (constraints : Option String) : List Request :=
  match value with
  | none => []
  | some text =>
    let resolved : Option PageElement :=
      match ph with
      | PlaceholderRef.byName n =>
        (findPlaceholder pres (slide.objectId.getD "") n).bind (fun l => l.head?)
      | PlaceholderRef.byElement e => some e
    match resolved with
    | none => []
    | some placeholder =>
      let ancestors := buildAncestors pres placeholder
      (appendInsertTextRequests env text (some placeholder.objectId) none constraints ancestors).1

/-- The result of building content requests: the pushed list on success, or
the error message together with the requests already pushed into the shared
array when the exception was raised (the array the source mutates in place is
observable at the throw site). -/
inductive BuildOut where
  | ok (requests : List Request)
  | err (msg : String) (requests : List Request)
deriving DecidableEq

/-- The per-body loop of appendContentRequests: fill the body text with
vertical constraints, then images, then videos; a videos error aborts with
the requests pushed so far. -/
def bodiesLoop (env : CanvasMeasure) (pres : Presentation) (slide : SlideDefinition)
    (imagePlaceholders : List PageElement) :
    List (PageElement × BodyDefinition) → BuildOut
  | [] => BuildOut.ok []
  | (placeholder, body) :: rest =>
    let textReqs := appendFillPlaceholderTextRequest env pres slide (some body.text)
      (PlaceholderRef.byElement placeholder) (some "vertical")
    let imgReqs :=
      if body.images.length ≠ 0 then
        appendCreateImageRequests pres slide.objectId body.images imagePlaceholders
      else []
    match (if body.videos.length ≠ 0 then
            appendCreateVideoRequests pres slide.objectId body.videos (some placeholder)
          else Except.ok []) with
    | Except.error msg => BuildOut.err msg (textReqs ++ imgReqs)
    | Except.ok vidReqs =>
      match bodiesLoop env pres slide imagePlaceholders rest with
      | BuildOut.err msg sofar => BuildOut.err msg (textReqs ++ imgReqs ++ vidReqs ++ sofar)
      | BuildOut.ok more => BuildOut.ok (textReqs ++ imgReqs ++ vidReqs ++ more)

/-- appendContentRequests from generic_layout.ts, in source push order:
title (horizontal constraints), centered title, subtitle, background image,
tables, bodies (text, images, videos per body), deletion of the picture
placeholders, speaker notes.  An exception from the video step propagates
with the requests pushed up to that point. -/
def appendContentRequests (env : CanvasMeasure) (pres : Presentation)
    (slide : SlideDefinition) : BuildOut :=
  let oid := slide.objectId.getD ""
  let head :=
    appendFillPlaceholderTextRequest env pres slide slide.title
      (PlaceholderRef.byName "TITLE") (some "horizontal")
    ++ appendFillPlaceholderTextRequest env pres slide slide.title
      (PlaceholderRef.byName "CENTERED_TITLE") none
    ++ appendFillPlaceholderTextRequest env pres slide slide.subtitle
      (PlaceholderRef.byName "SUBTITLE") none
    ++ (match slide.backgroundImage with
        | some image => [Request.updatePageProperties oid image.url]
        | none => [])
    ++ concatMap (fun t => (appendCreateTableRequest env "tableId" slide.objectId t).1)
      slide.tables
  let bodyElements := (findPlaceholder pres oid "BODY").getD []
  let bodyCount := min bodyElements.length slide.bodies.length
  let imagePlaceholders := (findPlaceholder pres oid "PICTURE").getD []
  let pairs := (bodyElements.take bodyCount).zip (slide.bodies.take bodyCount)
  match bodiesLoop env pres slide imagePlaceholders pairs with
  | BuildOut.err msg sofar => BuildOut.err msg (head ++ sofar)
  | BuildOut.ok bodyReqs =>
    let delReqs := imagePlaceholders.map (fun p => Request.deleteObject p.objectId)
    let notesReqs :=
      match slide.notes with
      | some nt =>
        (appendInsertTextRequests env nt (findSpeakerNotesObjectId pres oid) none none []).1
      | none => []
    BuildOut.ok (head ++ bodyReqs ++ delReqs ++ notesReqs)

/-! The dispatch scheduler of slide_generator.ts: updatePresentation splits
the ordered request list into chunks before sending. -/

def isCreateImage : Request → Bool
  | Request.createImage _ _ _ _ _ _ _ => true
  | _ => false

structure ChunkState where
  chunks : List (List Request)
  current : List Request
  count : ℕ
deriving DecidableEq

/-- One forEach step of the chunking loop in updatePresentation: count a
createImage, and when the count passes the cap, close the current chunk,
reset the counter to zero, and start a new chunk with this request. -/
def chunkStep (cap : ℕ) (st : ChunkState) (req : Request) : ChunkState :=
  let count := if isCreateImage req then st.count + 1 else st.count
  if cap < count then
    { chunks := st.chunks ++ [st.current], current := [req], count := 0 }
  else
    { st with current := st.current ++ [req], count := count }

/-- The chunk list updatePresentation dispatches, in order, including the
final push of the open chunk. -/
def chunkRequests (reqs : List Request) : List (List Request) :=
  let final := reqs.foldl (chunkStep MAX_IMAGES_PER_CHUNK) ⟨[], [], 0⟩
  final.chunks ++ [final.current]

/-- The generator state the claims about reloading concern: the current
snapshot and the module-global autofit memo store. -/
structure GeneratorState where
  presentation : Presentation
  cache : List (String × ℚ)

/-- reloadPresentation from slide_generator.ts: fetch a fresh snapshot and
replace this.presentation with it.  Nothing else is touched. -/
def reloadPresentation (s : GeneratorState) (fresh : Presentation) : GeneratorState :=
  { presentation := fresh, cache := s.cache }

/-- A measurement environment with zero extents, for paths that never
measure. -/
def trivialCanvas : CanvasMeasure :=
  { width := fun _ _ => 0, emHeightAscent := fun _ _ => 0, emHeightDescent := fun _ _ => 0 }

/-! Concrete snapshots, environments and deck fragments used to evaluate the
claims on explicit inputs.  The elements are 315 by 200 points (4000500 by
2540000 EMU at unit scale); the measurement environments report widths
proportional to the measured string length, as the canvas does for
fixed-pitch settings. -/

/-- An element with a single explicit run size of 10pt. -/
def eltRun10 : PageElement :=
  { objectId := "el1", sizeWidth := 4000500, sizeHeight := 2540000,
    transform := { scaleX := some 1, scaleY := some 1 },
    shapeText := some { textElements := [ { textRunStyle := some { fontSize := some 10 } } ] } }

/-- A measurement environment whose text never fits: 100 pixels per
character and a huge em height. -/
def envWide : CanvasMeasure :=
  { width := fun _ s => 100 * (s.length : ℚ),
    emHeightAscent := fun _ _ => 1000000, emHeightDescent := fun _ _ => 0 }

/-- An element with explicit run sizes 14, 15 and 15, averaging to 44/3. -/
def eltRuns141515 : PageElement :=
  { objectId := "el2", sizeWidth := 4000500, sizeHeight := 2540000,
    transform := { scaleX := some 1, scaleY := some 1 },
    shapeText := some { textElements :=
      [ { textRunStyle := some { fontSize := some 14 } },
        { textRunStyle := some { fontSize := some 15 } },
        { textRunStyle := some { fontSize := some 15 } } ] } }

/-- Snapshot A element: objectId E, explicit run size 20pt. -/
def eltSnapA : PageElement :=
  { objectId := "E", sizeWidth := 4000500, sizeHeight := 2540000,
    transform := { scaleX := some 1, scaleY := some 1 },
    shapeText := some { textElements := [ { textRunStyle := some { fontSize := some 20 } } ] } }

/-- Snapshot B element: the same objectId E, explicit run size 30pt. -/
def eltSnapB : PageElement :=
  { objectId := "E", sizeWidth := 4000500, sizeHeight := 2540000,
    transform := { scaleX := some 1, scaleY := some 1 },
    shapeText := some { textElements := [ { textRunStyle := some { fontSize := some 30 } } ] } }

/-- A measurement environment in which every text fits: one pixel per
character, zero em height. -/
def envFits : CanvasMeasure :=
  { width := fun _ s => (s.length : ℚ),
    emHeightAscent := fun _ _ => 0, emHeightDescent := fun _ _ => 0 }

def presSnapA : Presentation := { slides := [ { objectId := "s", pageElements := [eltSnapA] } ] }

def presSnapB : Presentation := { slides := [ { objectId := "s", pageElements := [eltSnapB] } ] }

/-- A createImage request, for the chunking scenarios. -/
def imgReqFix : Request := Request.createImage "i" "p" 0 0 0 0 "u"

/-- A 100 by 100 placeholder at the origin. -/
def eltBox100 : PageElement :=
  { objectId := "ph5", sizeWidth := 100, sizeHeight := 100,
    transform := { scaleX := some 1, scaleY := some 1 } }

/-- A 100 by 100 image with an explicit horizontal offset of 10. -/
def imgOffset10 : ImageDefinition :=
  { url := "u", width := 100, height := 100, padding := 0, offsetX := some 10 }

/-- A two-row table whose first cell is the structural sentinel. -/
def tblSentinel : TableDefinition :=
  { cells := [[{ rawText := "DELETE THIS ROW" }], [{ rawText := "x" }]], rows := 2, columns := 1 }

def titleEltFix : PageElement := { objectId := "titleElt", shapePlaceholderType := some "TITLE" }

def bodyEltFix : PageElement := { objectId := "bodyElt", shapePlaceholderType := some "BODY" }

def presTwoPh : Presentation :=
  { slides := [ { objectId := "s1", pageElements := [titleEltFix, bodyEltFix] } ],
    pageWidth := 9144000, pageHeight := 6858000 }

/-- A slide with a title and one body region holding two videos. -/
def slideTwoVideos : SlideDefinition :=
  { objectId := some "s1", title := some { rawText := "Hi" },
    bodies := [ { text := { rawText := "body" },
                  videos := [ { id := "v1", width := 100, height := 100 },
                              { id := "v2", width := 100, height := 100 } ] } ] }

/-- A text definition with two styled runs and two list markers. -/
def textTwoRuns : TextDefinition :=
  { rawText := "ab",
    textRuns := [ { start := 0, stop := 1, bold := some true },
                  { start := 1, stop := 2, italic := some true } ],
    listMarkers := [ { start := 0, stop := 1, type := "unordered" },
                     { start := 1, stop := 2, type := "ordered" } ] }

/-- A 40 by 20 image with padding 2 and no offsets, for the packing witness. -/
def imgPadded : ImageDefinition := { url := "w", width := 40, height := 20, padding := 2 }

/-- A 200 by 100 video, for the packing witness. -/
def vidFix : VideoDefinition := { id := "v", width := 200, height := 100 }

/-! Theorems.  Shared lemmas come first, then one theorem per claim with its
witness or counterexample. -/

/-- The chunk fold invariant: the flattening of the accumulated chunks plus
the open chunk grows by exactly the consumed requests, in order. -/
theorem chunkStep_foldl_inv (cap : ℕ) :
    ∀ (reqs : List Request) (st : ChunkState),
      ((reqs.foldl (chunkStep cap) st).chunks).flatten ++ (reqs.foldl (chunkStep cap) st).current
        = st.chunks.flatten ++ st.current ++ reqs := by
  intro reqs
  induction reqs with
  | nil => intro st; simp
  | cons r rest ih =>
    intro st
    rw [List.foldl_cons, ih (chunkStep cap st r)]
    unfold chunkStep
    split <;> dsimp only <;> split <;> simp [List.flatten_append]

/-- C3: for every ordered mutation list, the chunks produced by the
updatePresentation scheduler concatenate, in order, to exactly the original
request list: nothing is added, dropped or reordered. -/
theorem chunkRequests_concat_id (reqs : List Request) :
    (chunkRequests reqs).flatten = reqs := by
  unfold chunkRequests
  rw [List.flatten_append]
  simpa using chunkStep_foldl_inv MAX_IMAGES_PER_CHUNK reqs ⟨[], [], 0⟩

/-- C4: a batch of 13 consecutive createImage requests is split into a chunk
of 6 and a chunk of 7 createImage requests, so the configured cap of
MAX_IMAGES_PER_CHUNK = 6 is exceeded in the second chunk: on a split the
counter is reset to zero although the carried request is itself a
createImage. -/
theorem chunkRequests_cap_violation_at_13_images :
    (chunkRequests (List.replicate 13 imgReqFix)).map
        (fun c => c.countP (fun r => isCreateImage r)) = [6, 7]
    ∧ ¬ (∀ c ∈ chunkRequests (List.replicate 13 imgReqFix),
          c.countP (fun r => isCreateImage r) ≤ MAX_IMAGES_PER_CHUNK) := by
  constructor
  · decide
  · decide

unseal Rat.mul Rat.inv Rat.add Rat.sub in
/-- C6: for the sentinel table (first cell DELETE THIS ROW), the emitted
createTable request has one fewer row (1 instead of 2), the deleted first row
produces no insertText request, and yet an updateTableCellProperties header
fill for row 0 is still emitted, although the source comment says the
formatting update is conditional on a header. -/
theorem sentinel_table_emits_header_fill :
    appendCreateTableRequest trivialCanvas "t1" (some "p1") tblSentinel =
      ([Request.createTable "t1" "p1" 1 1,
        Request.insertText (some "t1") (some (0, 0)) "x",
        Request.updateTableCellProperties "t1" 0 0 1 1 (3/4) (3/4) (3/4)
          "tableCellBackgroundFill.solidFill.color"],
       { cells := [[{ rawText := "x" }]], rows := 1, columns := 1 }) := by
  decide

unseal Rat.mul Rat.inv Rat.add Rat.sub in
/-- C7 counterexample: on a slide with a title and a body holding two videos,
the multiple-videos error is raised only after the title and body text
insertText mutations were already pushed into the request list, refuting the
claim that no content mutation for the slide has been appended when the error
is raised. -/
theorem video_error_raised_after_prior_content_cx :
    appendContentRequests trivialCanvas presTwoPh slideTwoVideos =
      BuildOut.err "Multiple videos per slide are not supported."
        [Request.insertText (some "titleElt") none "Hi",
         Request.insertText (some "bodyElt") none "body"] := by
  decide

/-- C7 (amended): the multiple-videos rejection happens before any video
mutation is built: appendCreateVideoRequests returns the error and emits no
request at all for more than one video. -/
theorem multiple_videos_error_before_video_build (pres : Presentation)
    (pageObjectId : Option String) (videos : List VideoDefinition)
    (placeholder : Option PageElement) (h : 1 < videos.length) :
    appendCreateVideoRequests pres pageObjectId videos placeholder =
      Except.error "Multiple videos per slide are not supported." := by
  unfold appendCreateVideoRequests
  simp [h]

theorem multiple_videos_error_before_video_build_witness :
    1 < (List.length [ { id := "v1", width := 100, height := 100 },
                       ({ id := "v2", width := 100, height := 100 } : VideoDefinition) ])
    ∧ appendCreateVideoRequests presTwoPh (some "s1")
        [ { id := "v1", width := 100, height := 100 },
          { id := "v2", width := 100, height := 100 } ] none =
        Except.error "Multiple videos per slide are not supported." :=
  ⟨by decide,
   multiple_videos_error_before_video_build presTwoPh (some "s1") _ none (by decide)⟩

unseal Rat.mul Rat.inv Rat.add Rat.sub in
/-- C9 counterexample: after a reload the memo cache is unchanged, so the
result computed against the snapshot A geometry (explicit run size 20) is
served for the snapshot B element with the same objectId, although a fresh
computation on snapshot B returns 30. -/
theorem stale_autofit_served_after_reload_cx :
    (reloadPresentation
        { presentation := presSnapA,
          cache := (calculateFontSizeCached envFits [] [eltSnapA] "hello" "vertical").2 }
        presSnapB).cache = [("helloE", 20)]
    ∧ (calculateFontSizeCached envFits [("helloE", 20)] [eltSnapB] "hello" "vertical").1 = 20
    ∧ calculateFontSize envFits [eltSnapB] "hello" "vertical" = 30
    ∧ (calculateFontSizeCached envFits [("helloE", 20)] [eltSnapB] "hello" "vertical").1
        ≠ calculateFontSize envFits [eltSnapB] "hello" "vertical" := by
  refine ⟨by decide, by decide, by decide, by decide⟩

/-- C9 (amended): reloadPresentation replaces only the presentation snapshot;
the module-global autofit cache is neither cleared nor re-keyed. -/
theorem reloadPresentation_keeps_cache (s : GeneratorState) (fresh : Presentation) :
    (reloadPresentation s fresh).cache = s.cache
    ∧ (reloadPresentation s fresh).presentation = fresh :=
  ⟨rfl, rfl⟩

unseal Rat.mul Rat.inv Rat.add Rat.sub in
/-- C1 counterexample: with an explicit run size of 10pt on text that does
not fit, calculateFontSize returns 10, strictly below the 14pt legibility
floor the claim asserts as a lower bound. -/
theorem calculateFontSize_below_floor_cx :
    calculateFontSize envWide [eltRun10] "aaaa" "vertical" = 10
    ∧ calculateFontSize envWide [eltRun10] "aaaa" "vertical" < MIN_SIZE := by
  refine ⟨by decide, by decide⟩

unseal Rat.mul Rat.inv Rat.add Rat.sub in
/-- C2 counterexample: with the initial candidate 44/3 (the average of the
explicit run sizes 14, 15, 15) and text that never fits, the search performs
3 iterations, exceeding the claimed bound (initial - floor) / step = 8/3. -/
theorem autofit_iterations_exceed_linear_bound_cx :
    calculateFontSizeSteps envWide [eltRuns141515] "aaaa" "vertical" = 3
    ∧ initialCandidate [eltRuns141515] = 44/3
    ∧ ¬ ((calculateFontSizeSteps envWide [eltRuns141515] "aaaa" "vertical" : ℚ)
          ≤ (initialCandidate [eltRuns141515] - MIN_SIZE) / (1/4)) := by
  refine ⟨by decide, by decide, by decide⟩

/-- The autofit loop never grows the candidate. -/
theorem autofitLoop_le (outside : ℚ → Bool) :
    ∀ (fuel : ℕ) (fs : ℚ), autofitLoop outside fuel fs ≤ fs := by
  intro fuel
  induction fuel with
  | zero => intro fs; exact le_refl _
  | succ n ih =>
    intro fs
    simp only [autofitLoop]
    split
    · exact le_trans (ih (fs - 1/4)) (by linarith)
    · exact le_refl _

/-- The autofit loop either returns its input unchanged or a value above the
floor minus one step. -/
theorem autofitLoop_floor (outside : ℚ → Bool) :
    ∀ (fuel : ℕ) (fs : ℚ),
      autofitLoop outside fuel fs = fs ∨ MIN_SIZE - 1/4 < autofitLoop outside fuel fs := by
  intro fuel
  induction fuel with
  | zero => intro fs; exact Or.inl rfl
  | succ n ih =>
    intro fs
    simp only [autofitLoop]
    split
    · rename_i h
      rcases ih (fs - 1/4) with h1 | h1
      · right; rw [h1]; linarith [h.2]
      · right; exact h1
    · exact Or.inl rfl

/-- The autofit loop result is the input minus a quarter point per
iteration. -/
theorem autofitLoop_eq_sub_steps (outside : ℚ → Bool) :
    ∀ (fuel : ℕ) (fs : ℚ),
      autofitLoop outside fuel fs = fs - (autofitSteps outside fuel fs : ℚ) / 4 := by
  intro fuel
  induction fuel with
  | zero => intro fs; simp [autofitLoop, autofitSteps]
  | succ n ih =>
    intro fs
    simp only [autofitLoop, autofitSteps]
    split
    · rw [ih (fs - 1/4)]; push_cast; ring
    · simp

/-- When the loop iterates at all, the iteration count is below the linear
bound: the candidate before the last decrement was still above the floor. -/
theorem autofitSteps_pos_bound (outside : ℚ → Bool) :
    ∀ (fuel : ℕ) (fs : ℚ),
      autofitSteps outside fuel fs = 0 ∨
        MIN_SIZE + ((autofitSteps outside fuel fs : ℚ) - 1) / 4 < fs := by
  intro fuel
  induction fuel with
  | zero => intro fs; exact Or.inl rfl
  | succ n ih =>
    intro fs
    simp only [autofitSteps]
    split
    · rename_i h
      right
      rcases ih (fs - 1/4) with h1 | h1
      · rw [h1]; push_cast; linarith [h.2]
      · push_cast at h1 ⊢; linarith
    · exact Or.inl rfl

/-- With enough fuel the loop reaches a genuine stopping state: the text
fits, or the candidate is at or below the floor. -/
theorem autofitLoop_fixpoint (outside : ℚ → Bool) :
    ∀ (fuel : ℕ) (fs : ℚ), 4 * (fs - MIN_SIZE) < (fuel : ℚ) →
      (outside (autofitLoop outside fuel fs) = false ∨
        autofitLoop outside fuel fs ≤ MIN_SIZE) := by
  intro fuel
  induction fuel with
  | zero =>
    intro fs h
    right
    simp only [autofitLoop]
    push_cast at h
    linarith
  | succ n ih =>
    intro fs h
    simp only [autofitLoop]
    split
    · apply ih
      push_cast at h ⊢
      linarith
    · rename_i hc
      rcases Decidable.not_and_iff_or_not.mp hc with h1 | h1
      · left
        simpa using h1
      · right
        linarith [not_lt.mp h1]

/-- The fuel calculateFontSize runs the loop with satisfies the fixpoint
bound. -/
theorem autofitFuel_spec (fs : ℚ) : 4 * (fs - MIN_SIZE) < (autofitFuel fs : ℚ) := by
  unfold autofitFuel
  have h1 : ((fs - MIN_SIZE) * 4 : ℚ) ≤ (⌈(fs - MIN_SIZE) * 4⌉ : ℚ) := Int.le_ceil _
  have h2 : (⌈(fs - MIN_SIZE) * 4⌉ : ℤ) ≤ ((⌈(fs - MIN_SIZE) * 4⌉.toNat : ℤ)) :=
    Int.self_le_toNat _
  have h2q : ((⌈(fs - MIN_SIZE) * 4⌉ : ℤ) : ℚ) ≤ ((⌈(fs - MIN_SIZE) * 4⌉.toNat : ℤ) : ℚ) := by
    exact_mod_cast h2
  push_cast at h2q ⊢
  linarith

/-- C2 (amended): for every stopping test and initial candidate, the search
result is the initial candidate minus a quarter point per iteration (so the
candidate sequence is monotonically non-increasing in steps of exactly
0.25pt), the iteration count is at most the ceiling of
(initial - floor) / step, and the search stops only once the text fits or the
candidate has reached or passed the 14pt floor. -/
theorem autofit_search_monotone_bounded (outside : ℚ → Bool) (fs : ℚ) :
    runAutofit outside fs = fs - (runAutofitSteps outside fs : ℚ) / 4 ∧
    runAutofit outside fs ≤ fs ∧
    ((runAutofitSteps outside fs : ℤ) ≤ max 0 ⌈(fs - MIN_SIZE) * 4⌉) ∧
    (outside (runAutofit outside fs) = false ∨ runAutofit outside fs ≤ MIN_SIZE) := by
  refine ⟨autofitLoop_eq_sub_steps _ _ _, autofitLoop_le _ _ _, ?_,
    autofitLoop_fixpoint _ _ _ (autofitFuel_spec fs)⟩
  rcases autofitSteps_pos_bound outside (autofitFuel fs) fs with h | h
  · unfold runAutofitSteps
    rw [h]
    exact le_max_left _ _
  · have hk : ((runAutofitSteps outside fs : ℚ)) < (fs - MIN_SIZE) * 4 + 1 := by
      unfold runAutofitSteps
      linarith
    have hle : (runAutofitSteps outside fs : ℤ) ≤ ⌈(fs - MIN_SIZE) * 4⌉ := by
      by_contra hlt
      push_neg at hlt
      have h2 : (⌈(fs - MIN_SIZE) * 4⌉ : ℤ) + 1 ≤ ((runAutofitSteps outside fs : ℕ) : ℤ) := hlt
      have h3 : ((fs - MIN_SIZE) * 4 : ℚ) ≤ (⌈(fs - MIN_SIZE) * 4⌉ : ℚ) := Int.le_ceil _
      have h4 : ((⌈(fs - MIN_SIZE) * 4⌉ : ℤ) : ℚ) + 1 ≤ ((runAutofitSteps outside fs : ℕ) : ℚ) := by
        exact_mod_cast h2
      push_cast at h4
      linarith
    exact le_trans hle (le_max_right _ _)

/-- C1 (amended): the returned size never exceeds the initial candidate, and
the legibility floor holds only up to one step: the result is either the
initial candidate returned unchanged (in particular when the text is empty or
the candidate is already at or below the floor) or strictly above
MIN_SIZE - 0.25. -/
theorem calculateFontSize_within_initial_and_floor_slack (env : CanvasMeasure)
    (ancestors : List PageElement) (rawText : String) (constraints : String) :
    calculateFontSize env ancestors rawText constraints ≤ initialCandidate ancestors ∧
    (calculateFontSize env ancestors rawText constraints = initialCandidate ancestors ∨
      MIN_SIZE - 1/4 < calculateFontSize env ancestors rawText constraints) := by
  unfold calculateFontSize initialCandidate
  cases hl : ancestors.getLast? with
  | none => exact ⟨le_refl _, Or.inl rfl⟩
  | some element =>
    by_cases hr : rawText.length = 0
    · simp only [hr, if_pos rfl]
      exact ⟨le_refl _, Or.inl rfl⟩
    · simp only [if_neg hr]
      exact ⟨autofitLoop_le _ _ _, autofitLoop_floor _ _ _⟩

/-- filterMap over a reversed list is the reversed filterMap. -/
theorem filterMap_reverse_eq {a b : Type} (f : a → Option b) (l : List a) :
    l.reverse.filterMap f = (l.filterMap f).reverse := by
  induction l with
  | nil => rfl
  | cons x rest ih =>
    simp only [List.reverse_cons, List.filterMap_append, List.filterMap_cons, ih]
    cases f x <;> simp

/-- Everything styleRequestFor emits is an updateTextStyle request. -/
theorem styleRequestFor_isUpdate (env : CanvasMeasure) (ancestors : List PageElement)
    (rawText : String) (constraints : Option String) (oid : Option String)
    (cell : Option (ℕ × ℕ)) (run : TextRun) (r : Request)
    (h : styleRequestFor env ancestors rawText constraints oid cell run = some r) :
    isUpdateTextStyleReq r = true := by
  unfold styleRequestFor at h
  dsimp only at h
  split at h
  · rw [← Option.some.inj h]
    rfl
  · exact absurd h (by simp)

/-- Nothing styleRequestFor emits is a createParagraphBullets request. -/
theorem styleRequestFor_not_bullet (env : CanvasMeasure) (ancestors : List PageElement)
    (rawText : String) (constraints : Option String) (oid : Option String)
    (cell : Option (ℕ × ℕ)) (run : TextRun) (r : Request)
    (h : styleRequestFor env ancestors rawText constraints oid cell run = some r) :
    isBulletReq r = false := by
  unfold styleRequestFor at h
  dsimp only at h
  split at h
  · rw [← Option.some.inj h]
    rfl
  · exact absurd h (by simp)

theorem filter_update_styleReqs (env : CanvasMeasure) (ancestors : List PageElement)
    (rawText : String) (constraints : Option String) (oid : Option String)
    (cell : Option (ℕ × ℕ)) (runs : List TextRun) :
    (runs.filterMap (styleRequestFor env ancestors rawText constraints oid cell)).filter
        isUpdateTextStyleReq
      = runs.filterMap (styleRequestFor env ancestors rawText constraints oid cell) := by
  apply List.filter_eq_self.mpr
  intro r hr
  obtain ⟨run, _, heq⟩ := List.mem_filterMap.mp hr
  exact styleRequestFor_isUpdate env ancestors rawText constraints oid cell run r heq

theorem filter_bullet_styleReqs (env : CanvasMeasure) (ancestors : List PageElement)
    (rawText : String) (constraints : Option String) (oid : Option String)
    (cell : Option (ℕ × ℕ)) (runs : List TextRun) :
    (runs.filterMap (styleRequestFor env ancestors rawText constraints oid cell)).filter
        isBulletReq = [] := by
  rw [List.filter_eq_nil_iff]
  intro r hr
  obtain ⟨run, _, heq⟩ := List.mem_filterMap.mp hr
  simp [styleRequestFor_not_bullet env ancestors rawText constraints oid cell run r heq]

theorem filter_update_bulletReqs (oid : Option String) (cell : Option (ℕ × ℕ))
    (markers : List ListMarker) :
    (markers.map (bulletRequestFor oid cell)).filter isUpdateTextStyleReq = [] := by
  rw [List.filter_eq_nil_iff]
  intro r hr
  obtain ⟨m, _, rfl⟩ := List.mem_map.mp hr
  simp [bulletRequestFor, isUpdateTextStyleReq]

theorem filter_bullet_bulletReqs (oid : Option String) (cell : Option (ℕ × ℕ))
    (markers : List ListMarker) :
    (markers.map (bulletRequestFor oid cell)).filter isBulletReq
      = markers.map (bulletRequestFor oid cell) := by
  apply List.filter_eq_self.mpr
  intro r hr
  obtain ⟨m, _, rfl⟩ := List.mem_map.mp hr
  rfl

/-- C10: on any nonblank text, appendInsertTextRequests leaves the
TextDefinition with its textRuns and listMarkers reversed in place, and a
second call on the same (now mutated) TextDefinition emits its
updateTextStyle requests, and its createParagraphBullets requests, in the
opposite order from the first call: request assembly is not idempotent on its
input. -/
theorem appendInsertTextRequests_mutates_and_reverses (env : CanvasMeasure)
    (text : TextDefinition) (oid : Option String) (cell : Option (ℕ × ℕ))
    (constraints : Option String) (ancestors : List PageElement)
    (h : (jsTrimLeft text.rawText).length ≠ 0) :
    ((appendInsertTextRequests env text oid cell constraints ancestors).2.textRuns
        = text.textRuns.reverse)
    ∧ ((appendInsertTextRequests env text oid cell constraints ancestors).2.listMarkers
        = text.listMarkers.reverse)
    ∧ ((appendInsertTextRequests env
          (appendInsertTextRequests env text oid cell constraints ancestors).2
          oid cell constraints ancestors).1.filter isUpdateTextStyleReq
        = ((appendInsertTextRequests env text oid cell constraints ancestors).1.filter
            isUpdateTextStyleReq).reverse)
    ∧ ((appendInsertTextRequests env
          (appendInsertTextRequests env text oid cell constraints ancestors).2
          oid cell constraints ancestors).1.filter isBulletReq
        = ((appendInsertTextRequests env text oid cell constraints ancestors).1.filter
            isBulletReq).reverse) := by
  have e1 : appendInsertTextRequests env text oid cell constraints ancestors
      = (Request.insertText oid cell text.rawText
          :: (text.textRuns.reverse.filterMap
                (styleRequestFor env ancestors text.rawText constraints oid cell)
              ++ text.listMarkers.reverse.map (bulletRequestFor oid cell)),
         { text with textRuns := text.textRuns.reverse,
                     listMarkers := text.listMarkers.reverse }) := by
    unfold appendInsertTextRequests
    rw [if_neg h]
  have e2 : appendInsertTextRequests env
        ({ text with textRuns := text.textRuns.reverse,
                     listMarkers := text.listMarkers.reverse } : TextDefinition)
        oid cell constraints ancestors
      = (Request.insertText oid cell text.rawText
          :: (text.textRuns.reverse.reverse.filterMap
                (styleRequestFor env ancestors text.rawText constraints oid cell)
              ++ text.listMarkers.reverse.reverse.map (bulletRequestFor oid cell)),
         { text with textRuns := text.textRuns.reverse.reverse,
                     listMarkers := text.listMarkers.reverse.reverse }) := by
    unfold appendInsertTextRequests
    rw [if_neg h]
  rw [e1]
  dsimp only
  rw [e2]
  dsimp only
  refine ⟨rfl, rfl, ?_, ?_⟩
  · simp only [List.reverse_reverse, List.filter_cons, List.filter_append,
      filter_update_styleReqs, filter_update_bulletReqs,
      filterMap_reverse_eq, List.reverse_reverse]
    simp only [isUpdateTextStyleReq, List.append_nil, Bool.false_eq_true, if_false,
      List.filter_reverse, List.reverse_reverse]
    exact (filter_update_styleReqs env ancestors text.rawText constraints oid cell
      text.textRuns).symm
  · simp only [List.reverse_reverse, List.filter_cons, List.filter_append,
      filter_bullet_styleReqs, filter_bullet_bulletReqs,
      List.map_reverse, List.reverse_reverse]
    simp only [isBulletReq, List.nil_append, Bool.false_eq_true, if_false,
      List.filter_reverse, List.reverse_reverse]
    exact (filter_bullet_bulletReqs oid cell text.listMarkers).symm

/-- Witness for appendInsertTextRequests_mutates_and_reverses on a two-run,
two-marker text definition. -/
theorem appendInsertTextRequests_mutates_and_reverses_witness :
    ((jsTrimLeft textTwoRuns.rawText).length ≠ 0)
    ∧ (((appendInsertTextRequests trivialCanvas textTwoRuns none none none []).2.textRuns
          = textTwoRuns.textRuns.reverse)
      ∧ ((appendInsertTextRequests trivialCanvas textTwoRuns none none none []).2.listMarkers
          = textTwoRuns.listMarkers.reverse)
      ∧ ((appendInsertTextRequests trivialCanvas
            (appendInsertTextRequests trivialCanvas textTwoRuns none none none []).2
            none none none []).1.filter isUpdateTextStyleReq
          = ((appendInsertTextRequests trivialCanvas textTwoRuns none none none []).1.filter
              isUpdateTextStyleReq).reverse)
      ∧ ((appendInsertTextRequests trivialCanvas
            (appendInsertTextRequests trivialCanvas textTwoRuns none none none []).2
            none none none []).1.filter isBulletReq
          = ((appendInsertTextRequests trivialCanvas textTwoRuns none none none []).1.filter
              isBulletReq).reverse)) :=
  ⟨by decide,
   appendInsertTextRequests_mutates_and_reverses trivialCanvas textTwoRuns none none none []
     (by decide)⟩

/-- Peeling one entry off lastDefined, seen through getD. -/
theorem lastDefined_cons_getD {b : Type} (x : Option b) (xs : List (Option b)) (d : b) :
    (lastDefined (x :: xs)).getD d = (lastDefined xs).getD (x.getD d) := by
  cases h : lastDefined xs <;> cases x <;> simp [lastDefined, h]

theorem bind_const_none {a b : Type} (o : Option a) :
    (o.bind (fun _ => (none : Option b))) = none := by cases o <;> rfl

theorem lastDefined_eq_none_of_all_none {a b : Type} (f : a → Option b)
    (hf : ∀ x, f x = none) : ∀ (l : List a), lastDefined (l.map f) = none := by
  intro l
  induction l with
  | nil => rfl
  | cons x rest ih => simp only [List.map_cons, lastDefined, ih, hf]

/-- Overlaying paragraph styles left to right computes, in each field read
through a projection compatible with one overlay step, the youngest defined
value over the initial one. -/
theorem foldl_styleStep_proj {b : Type} (pr : ComputedStyle → b) (g : ParagraphStyle → Option b)
    (hstep : ∀ acc s, pr (overlayStyle acc s) = (g s).getD (pr acc)) :
    ∀ (l : List (Option ParagraphStyle)) (init : ComputedStyle),
      pr (l.foldl styleStep init)
        = (lastDefined (l.map (fun o => o.bind g))).getD (pr init) := by
  intro l
  induction l with
  | nil => intro init; simp [lastDefined]
  | cons o rest ih =>
    intro init
    simp only [List.foldl_cons, List.map_cons]
    rw [lastDefined_cons_getD, ih (styleStep init o)]
    congr 1
    cases o with
    | none => simp [styleStep]
    | some s => simp [styleStep, hstep]

/-- C8: the effective style of an ancestor chain equals the documented
defaults overlaid in order with each ancestor first paragraph style: in every
overlaid field the youngest ancestor defining it wins, a field no ancestor
defines keeps its default, and the fields a paragraph style can never define
(font family, size, weight) always keep their defaults. -/
theorem computedStyle_defaults_youngest_wins (ancestors : List PageElement) :
    (computedStyle ancestors).lineSpacing
      = (lastDefined (ancestors.map (fun a => (firstParagraphStyle a).bind
          (fun s => s.lineSpacing)))).getD DEFAULT_STYLE.lineSpacing
    ∧ (computedStyle ancestors).alignment
      = (lastDefined (ancestors.map (fun a => (firstParagraphStyle a).bind
          (fun s => s.alignment)))).getD DEFAULT_STYLE.alignment
    ∧ (computedStyle ancestors).indentStart
      = (lastDefined (ancestors.map (fun a => (firstParagraphStyle a).bind
          (fun s => s.indentStart)))).getD DEFAULT_STYLE.indentStart
    ∧ (computedStyle ancestors).indentEnd
      = (lastDefined (ancestors.map (fun a => (firstParagraphStyle a).bind
          (fun s => s.indentEnd)))).getD DEFAULT_STYLE.indentEnd
    ∧ (computedStyle ancestors).spaceAbove
      = (lastDefined (ancestors.map (fun a => (firstParagraphStyle a).bind
          (fun s => s.spaceAbove)))).getD DEFAULT_STYLE.spaceAbove
    ∧ (computedStyle ancestors).spaceBelow
      = (lastDefined (ancestors.map (fun a => (firstParagraphStyle a).bind
          (fun s => s.spaceBelow)))).getD DEFAULT_STYLE.spaceBelow
    ∧ (computedStyle ancestors).indentFirstLine
      = (lastDefined (ancestors.map (fun a => (firstParagraphStyle a).bind
          (fun s => s.indentFirstLine)))).getD DEFAULT_STYLE.indentFirstLine
    ∧ (computedStyle ancestors).direction
      = (lastDefined (ancestors.map (fun a => (firstParagraphStyle a).bind
          (fun s => s.direction)))).getD DEFAULT_STYLE.direction
    ∧ (computedStyle ancestors).spacingMode
      = (lastDefined (ancestors.map (fun a => (firstParagraphStyle a).bind
          (fun s => s.spacingMode)))).getD DEFAULT_STYLE.spacingMode
    ∧ (computedStyle ancestors).fontFamily = DEFAULT_STYLE.fontFamily
    ∧ (computedStyle ancestors).fontSize = DEFAULT_STYLE.fontSize
    ∧ (computedStyle ancestors).weight = DEFAULT_STYLE.weight := by
  unfold computedStyle
  refine ⟨?_, ?_, ?_, ?_, ?_, ?_, ?_, ?_, ?_, ?_, ?_, ?_⟩
  · have h := foldl_styleStep_proj (fun c => c.lineSpacing) (fun s => s.lineSpacing)
      (fun acc s => rfl) (ancestors.map firstParagraphStyle) DEFAULT_STYLE
    rw [List.map_map] at h
    exact h
  · have h := foldl_styleStep_proj (fun c => c.alignment) (fun s => s.alignment)
      (fun acc s => rfl) (ancestors.map firstParagraphStyle) DEFAULT_STYLE
    rw [List.map_map] at h
    exact h
  · have h := foldl_styleStep_proj (fun c => c.indentStart) (fun s => s.indentStart)
      (fun acc s => rfl) (ancestors.map firstParagraphStyle) DEFAULT_STYLE
    rw [List.map_map] at h
    exact h
  · have h := foldl_styleStep_proj (fun c => c.indentEnd) (fun s => s.indentEnd)
      (fun acc s => rfl) (ancestors.map firstParagraphStyle) DEFAULT_STYLE
    rw [List.map_map] at h
    exact h
  · have h := foldl_styleStep_proj (fun c => c.spaceAbove) (fun s => s.spaceAbove)
      (fun acc s => rfl) (ancestors.map firstParagraphStyle) DEFAULT_STYLE
    rw [List.map_map] at h
    exact h
  · have h := foldl_styleStep_proj (fun c => c.spaceBelow) (fun s => s.spaceBelow)
      (fun acc s => rfl) (ancestors.map firstParagraphStyle) DEFAULT_STYLE
    rw [List.map_map] at h
    exact h
  · have h := foldl_styleStep_proj (fun c => c.indentFirstLine) (fun s => s.indentFirstLine)
      (fun acc s => rfl) (ancestors.map firstParagraphStyle) DEFAULT_STYLE
    rw [List.map_map] at h
    exact h
  · have h := foldl_styleStep_proj (fun c => c.direction) (fun s => s.direction)
      (fun acc s => rfl) (ancestors.map firstParagraphStyle) DEFAULT_STYLE
    rw [List.map_map] at h
    exact h
  · have h := foldl_styleStep_proj (fun c => c.spacingMode) (fun s => s.spacingMode)
      (fun acc s => rfl) (ancestors.map firstParagraphStyle) DEFAULT_STYLE
    rw [List.map_map] at h
    exact h
  · have h := foldl_styleStep_proj (fun c => c.fontFamily) (fun _ => none)
      (fun acc s => rfl) (ancestors.map firstParagraphStyle) DEFAULT_STYLE
    rw [lastDefined_eq_none_of_all_none (fun o => o.bind (fun _ => none))
      (fun o => bind_const_none o) (ancestors.map firstParagraphStyle)] at h
    simpa using h
  · have h := foldl_styleStep_proj (fun c => c.fontSize) (fun _ => none)
      (fun acc s => rfl) (ancestors.map firstParagraphStyle) DEFAULT_STYLE
    rw [lastDefined_eq_none_of_all_none (fun o => o.bind (fun _ => none))
      (fun o => bind_const_none o) (ancestors.map firstParagraphStyle)] at h
    simpa using h
  · have h := foldl_styleStep_proj (fun c => c.weight) (fun _ => none)
      (fun acc s => rfl) (ancestors.map firstParagraphStyle) DEFAULT_STYLE
    rw [lastDefined_eq_none_of_all_none (fun o => o.bind (fun _ => none))
      (fun o => bind_const_none o) (ancestors.map firstParagraphStyle)] at h
    simpa using h

/-- Scaling both extents of a positive padded layout by the smaller of the
two box quotients keeps each scaled extent inside the box. -/
theorem fit_center_facts (w h p bw bh : ℚ) (hw : 0 < w) (hh : 0 < h) (hp : 0 ≤ p)
    (hbw : 0 ≤ bw) (hbh : 0 ≤ bh) :
    w * min (bw / (w + p * 2)) (bh / (h + p * 2)) ≤ bw
    ∧ h * min (bw / (w + p * 2)) (bh / (h + p * 2)) ≤ bh := by
  have ha : (0:ℚ) < w + p * 2 := by linarith
  have hb : (0:ℚ) < h + p * 2 := by linarith
  have hr0 : 0 ≤ min (bw / (w + p * 2)) (bh / (h + p * 2)) :=
    le_min (div_nonneg hbw ha.le) (div_nonneg hbh hb.le)
  constructor
  · calc w * min (bw / (w + p * 2)) (bh / (h + p * 2))
        ≤ (w + p * 2) * min (bw / (w + p * 2)) (bh / (h + p * 2)) := by
          apply mul_le_mul_of_nonneg_right _ hr0
          linarith
    _ ≤ (w + p * 2) * (bw / (w + p * 2)) :=
          mul_le_mul_of_nonneg_left (min_le_left _ _) ha.le
    _ = bw := by field_simp
  · calc h * min (bw / (w + p * 2)) (bh / (h + p * 2))
        ≤ (h + p * 2) * min (bw / (w + p * 2)) (bh / (h + p * 2)) := by
          apply mul_le_mul_of_nonneg_right _ hr0
          linarith
    _ ≤ (h + p * 2) * (bh / (h + p * 2)) :=
          mul_le_mul_of_nonneg_left (min_le_right _ _) hb.le
    _ = bh := by field_simp

/-- C5 (amended): the chosen scale is the minimum of the width and height
quotients, so for positive content dimensions, nonnegative padding and a
nonnegative target box the emitted width and height never exceed the box; the
translation centers the content exactly whenever the explicit per-image
offset is absent (videos carry no offset, so they are always centered); a
present offset is added scaled by the ratio. -/
theorem packing_scales_fit_and_center (pw ph : ℚ) (img : ImageDefinition)
    (phd : Option PageElement) (video : VideoDefinition) (vph : Option PageElement)
    (hiw : 0 < img.width) (hih : 0 < img.height) (hip : 0 ≤ img.padding)
    (hbw : 0 ≤ (imageTargetBox pw ph img phd).width)
    (hbh : 0 ≤ (imageTargetBox pw ph img phd).height)
    (hvw : 0 < video.width) (hvh : 0 < video.height)
    (hvbw : 0 ≤ (getBodyBoundingBox pw ph vph).width)
    (hvbh : 0 ≤ (getBodyBoundingBox pw ph vph).height) :
    ((transformImageSize pw ph img phd).width ≤ (imageTargetBox pw ph img phd).width
      ∧ (transformImageSize pw ph img phd).height ≤ (imageTargetBox pw ph img phd).height
      ∧ (img.offsetX = none →
          (transformImageSize pw ph img phd).translateX
            = (imageTargetBox pw ph img phd).x
              + ((imageTargetBox pw ph img phd).width
                  - (transformImageSize pw ph img phd).width) / 2)
      ∧ (img.offsetY = none →
          (transformImageSize pw ph img phd).translateY
            = (imageTargetBox pw ph img phd).y
              + ((imageTargetBox pw ph img phd).height
                  - (transformImageSize pw ph img phd).height) / 2))
    ∧ ((videoPlacement pw ph video vph).width ≤ (getBodyBoundingBox pw ph vph).width
      ∧ (videoPlacement pw ph video vph).height ≤ (getBodyBoundingBox pw ph vph).height
      ∧ (videoPlacement pw ph video vph).translateX
          = (getBodyBoundingBox pw ph vph).x
            + ((getBodyBoundingBox pw ph vph).width
                - (videoPlacement pw ph video vph).width) / 2
      ∧ (videoPlacement pw ph video vph).translateY
          = (getBodyBoundingBox pw ph vph).y
            + ((getBodyBoundingBox pw ph vph).height
                - (videoPlacement pw ph video vph).height) / 2) := by
  obtain hfi := fit_center_facts img.width img.height img.padding
    (imageTargetBox pw ph img phd).width (imageTargetBox pw ph img phd).height
    hiw hih hip hbw hbh
  have hfv := fit_center_facts video.width video.height 0
    (getBodyBoundingBox pw ph vph).width (getBodyBoundingBox pw ph vph).height
    hvw hvh le_rfl hvbw hvbh
  simp only [zero_mul, add_zero] at hfv
  refine ⟨⟨hfi.1, hfi.2, ?_, ?_⟩, hfv.1, hfv.2, rfl, rfl⟩
  · intro hox
    simp only [transformImageSize, hox, Option.getD_none]
    ring
  · intro hoy
    simp only [transformImageSize, hoy, Option.getD_none]
    ring

unseal Rat.mul Rat.inv Rat.add Rat.sub in
/-- Witness for packing_scales_fit_and_center at a 40 by 20 padded image in
a 100 by 100 placeholder box and a 200 by 100 video on a 1000 by 1000 page. -/
theorem packing_scales_fit_and_center_witness :
    (0 < imgPadded.width ∧ 0 < imgPadded.height ∧ 0 ≤ imgPadded.padding
      ∧ 0 ≤ (imageTargetBox 1000 1000 imgPadded (some eltBox100)).width
      ∧ 0 ≤ (imageTargetBox 1000 1000 imgPadded (some eltBox100)).height
      ∧ 0 < vidFix.width ∧ 0 < vidFix.height
      ∧ 0 ≤ (getBodyBoundingBox 1000 1000 (none : Option PageElement)).width
      ∧ 0 ≤ (getBodyBoundingBox 1000 1000 (none : Option PageElement)).height)
    ∧ (((transformImageSize 1000 1000 imgPadded (some eltBox100)).width
          ≤ (imageTargetBox 1000 1000 imgPadded (some eltBox100)).width
        ∧ (transformImageSize 1000 1000 imgPadded (some eltBox100)).height
          ≤ (imageTargetBox 1000 1000 imgPadded (some eltBox100)).height
        ∧ (imgPadded.offsetX = none →
            (transformImageSize 1000 1000 imgPadded (some eltBox100)).translateX
              = (imageTargetBox 1000 1000 imgPadded (some eltBox100)).x
                + ((imageTargetBox 1000 1000 imgPadded (some eltBox100)).width
                    - (transformImageSize 1000 1000 imgPadded (some eltBox100)).width) / 2)
        ∧ (imgPadded.offsetY = none →
            (transformImageSize 1000 1000 imgPadded (some eltBox100)).translateY
              = (imageTargetBox 1000 1000 imgPadded (some eltBox100)).y
                + ((imageTargetBox 1000 1000 imgPadded (some eltBox100)).height
                    - (transformImageSize 1000 1000 imgPadded (some eltBox100)).height) / 2))
      ∧ ((videoPlacement 1000 1000 vidFix none).width
          ≤ (getBodyBoundingBox 1000 1000 (none : Option PageElement)).width
        ∧ (videoPlacement 1000 1000 vidFix none).height
          ≤ (getBodyBoundingBox 1000 1000 (none : Option PageElement)).height
        ∧ (videoPlacement 1000 1000 vidFix none).translateX
            = (getBodyBoundingBox 1000 1000 (none : Option PageElement)).x
              + ((getBodyBoundingBox 1000 1000 (none : Option PageElement)).width
                  - (videoPlacement 1000 1000 vidFix none).width) / 2
        ∧ (videoPlacement 1000 1000 vidFix none).translateY
            = (getBodyBoundingBox 1000 1000 (none : Option PageElement)).y
              + ((getBodyBoundingBox 1000 1000 (none : Option PageElement)).height
                  - (videoPlacement 1000 1000 vidFix none).height) / 2)) :=
  ⟨⟨by decide, by decide, by decide, by decide, by decide, by decide, by decide,
    by decide, by decide⟩,
   packing_scales_fit_and_center 1000 1000 imgPadded (some eltBox100) vidFix none
     (by decide) (by decide) (by decide) (by decide) (by decide) (by decide) (by decide)
     (by decide) (by decide)⟩

unseal Rat.mul Rat.inv Rat.add Rat.sub in
/-- C5 counterexample: an image with an explicit offsetX of 10 in a 100 by
100 box is emitted with translateX 10, not the centering translate
box.x + (box.width - width) / 2 = 0 the claim asserts. -/
theorem image_offset_breaks_centering_cx :
    (transformImageSize 1000 1000 imgOffset10 (some eltBox100)).translateX ≠
      (imageTargetBox 1000 1000 imgOffset10 (some eltBox100)).x
        + ((imageTargetBox 1000 1000 imgOffset10 (some eltBox100)).width
            - (transformImageSize 1000 1000 imgOffset10 (some eltBox100)).width) / 2 := by
  decide

end MdToGSlides



